import Mathlib

/-!
Verification development for the doc-whisper-agent scoring pipeline.

The Python sources under `backend/analyzer/` are shallowly embedded here:
pure scoring functions become Lean functions over `ℚ` (Python floats are
modelled as exact rationals), `String` / `List Char` and `List`; Python's
`round(x, 1)` / `round(x, 2)` are modelled by `round1` / `round2`
(round half up on exact rationals; no claim below depends on behaviour at
exact ties, where Python's binary-float rounding can differ).  Text
processing (`str.split`, `str.count`, `str.lower`, `str.strip`, sentence
splitting) is implemented by structural recursion over `List Char` so the
definitions evaluate inside the kernel; each function's doc comment names
the Python operation it models.  The external `textstat` library and the
`re` regex module are external collaborators of the analyzers; they are
modelled by executable Lean functions following their documented
behaviour, and each such model is marked in its doc comment.
-/

/-- Models Python `round(x, 1)` on exact rationals (round half up). -/
def round1 (x : ℚ) : ℚ := ((⌊x * 10 + 1/2⌋ : ℤ) : ℚ) / 10

/-- Models Python `round(x, 2)` on exact rationals (round half up). -/
def round2 (x : ℚ) : ℚ := ((⌊x * 100 + 1/2⌋ : ℤ) : ℚ) / 100

theorem round1_mono {x y : ℚ} (h : x ≤ y) : round1 x ≤ round1 y := by
  have h2 : (⌊x * 10 + 1/2⌋ : ℤ) ≤ ⌊y * 10 + 1/2⌋ := Int.floor_mono (by linarith)
  have h3 : ((⌊x * 10 + 1/2⌋ : ℤ) : ℚ) ≤ ((⌊y * 10 + 1/2⌋ : ℤ) : ℚ) := by exact_mod_cast h2
  unfold round1
  linarith

theorem round1_zero : round1 0 = 0 := by norm_num [round1]

theorem round1_ten : round1 10 = 10 := by norm_num [round1]

/-! ### Text-processing primitives (models of Python string operations) -/

/-- ASCII lower-casing of one character, models `str.lower` per character. -/
def lowerC (c : Char) : Char :=
  if c.isUpper then Char.ofNat (c.toNat + 32) else c

/-- Models Python `str.lower()` (ASCII range; the analyzer vocabularies are
all ASCII). -/
def lowerL (l : List Char) : List Char := l.map lowerC

/-- Splits a character list at every character satisfying `p`, keeping empty
segments, like Python `re.split` on a single-character class. -/
def splitChars (p : Char → Bool) (l : List Char) : List (List Char) :=
  l.foldr
    (fun c acc =>
      if p c then [] :: acc
      else
        match acc with
        | [] => [[c]]
        | a :: as => (c :: a) :: as)
    [[]]

/-- Models Python `str.split()` with no arguments: split on whitespace,
dropping empty pieces. -/
def wordsL (l : List Char) : List (List Char) :=
  (splitChars Char.isWhitespace l).filter (fun w => !w.isEmpty)

/-- `len(content.split())`, the word count used throughout the analyzers. -/
def wordCount (c : String) : ℕ := (wordsL c.data).length

/-- Models Python `str.strip()` (strip whitespace from both ends). -/
def trimL (l : List Char) : List Char :=
  ((l.dropWhile Char.isWhitespace).reverse.dropWhile Char.isWhitespace).reverse

def isPrefixL : List Char → List Char → Bool
  | [], _ => true
  | _ :: _, [] => false
  | p :: ps, c :: cs => p == c && isPrefixL ps cs

/-- Fuel-driven scan counting non-overlapping occurrences of `pat` left to
right; the fuel is the length of the scanned list, consumed one step per
character position. -/
def countOccF (pat : List Char) : ℕ → List Char → ℕ
  | 0, _ => 0
  | _ + 1, [] => 0
  | fuel + 1, c :: cs =>
    if isPrefixL pat (c :: cs) then 1 + countOccF pat fuel (cs.drop (pat.length - 1))
    else countOccF pat fuel cs

/-- Models Python `s.count(pat)` (non-overlapping, left to right). -/
def pyCountL (s : List Char) (pat : List Char) : ℕ :=
  if pat.isEmpty then 0 else countOccF pat s.length s

/-- Models the Python substring test `pat in s`. -/
def containsSub (pat : List Char) (s : List Char) : Bool :=
  decide (0 < pyCountL s pat)

/-- Sum of `content.count(term)` over a vocabulary, the idiom
`sum(content.count(t) for t in terms)` used by every analyzer. -/
def vocabCount (content : List Char) (terms : List String) : ℕ :=
  (terms.map (fun t => pyCountL content t.data)).sum

/-- Suffix test on character lists. -/
def endsWithL (suf : List Char) (s : List Char) : Bool :=
  isPrefixL suf.reverse s.reverse

/-! ### Readability analyzer (`readability_analyzer.py`) -/

/-- The fixed technical vocabulary of `_analyze_technical_complexity`. -/
def technicalTerms : List String :=
  ["api", "sdk", "json", "xml", "html", "css", "javascript", "integration",
   "endpoint", "authentication", "authorization", "webhook", "callback",
   "parameter", "payload", "request", "response", "configuration",
   "implementation", "deployment", "initialization", "instantiation"]

/-- `sum(content_lower.count(term) for term in technical_terms)`. -/
def techTermCount (c : String) : ℕ := vocabCount (lowerL c.data) technicalTerms

/-- `tech_term_count / len(content.split()) if content.split() else 0`:
the RAW fraction (not a percentage) later passed to
`_determine_complexity_level`. -/
def techTermDensityRaw (c : String) : ℚ :=
  if wordCount c = 0 then 0 else (techTermCount c : ℚ) / (wordCount c : ℚ)

/-- Word-constituent character, models regex `\w`. -/
def isWordChar (c : Char) : Bool := c.isAlphanum || c == '_'

/-- Models `len(re.findall(r'\b[A-Z]{2,}\b', content))`: maximal runs of at
least two uppercase letters delimited by word boundaries.  The boolean
argument records whether the previous character was a word character. -/
def countAcronymsF : ℕ → Bool → List Char → ℕ
  | 0, _, _ => 0
  | _ + 1, _, [] => 0
  | fuel + 1, prevW, c :: cs =>
    if c.isUpper && !prevW then
      let run := (c :: cs).takeWhile Char.isUpper
      let rest := (c :: cs).drop run.length
      let boundary : Bool := match rest with | [] => true | r :: _ => !isWordChar r
      if decide (2 ≤ run.length) && boundary then 1 + countAcronymsF fuel true rest
      else countAcronymsF fuel (isWordChar c) cs
    else countAcronymsF fuel (isWordChar c) cs

def countAcronyms (c : String) : ℕ := countAcronymsF c.data.length false c.data

/-- Attempts the regex `\w+\.\w+\(\)` at the current position (which the
scanner guarantees is a word boundary); returns the rest after a match. -/
def matchMethodAt (l : List Char) : Option (List Char) :=
  let w1 := l.takeWhile isWordChar
  let r1 := l.drop w1.length
  if w1.isEmpty then none
  else
    match r1 with
    | '.' :: r2 =>
      let w2 := r2.takeWhile isWordChar
      let r3 := r2.drop w2.length
      if w2.isEmpty then none
      else
        match r3 with
        | '(' :: ')' :: r4 => some r4
        | _ => none
    | _ => none

/-- Models `len(re.findall(r'\b\w+\.\w+\(\)', content))` (non-overlapping). -/
def countMethodCallsF : ℕ → Bool → List Char → ℕ
  | 0, _, _ => 0
  | _ + 1, _, [] => 0
  | fuel + 1, prevW, c :: cs =>
    if !prevW && isWordChar c then
      match matchMethodAt (c :: cs) with
      | some rest => 1 + countMethodCallsF fuel false rest
      | none => countMethodCallsF fuel true cs
    else countMethodCallsF fuel (isWordChar c) cs

def countMethodCalls (c : String) : ℕ := countMethodCallsF c.data.length false c.data

/-- Attempts the regex `\w+\/\w+` at a word boundary; returns the rest
after a match (the second word run is consumed greedily). -/
def matchPathAt (l : List Char) : Option (List Char) :=
  let w1 := l.takeWhile isWordChar
  let r1 := l.drop w1.length
  if w1.isEmpty then none
  else
    match r1 with
    | '/' :: r2 =>
      let w2 := r2.takeWhile isWordChar
      if w2.isEmpty then none else some (r2.drop w2.length)
    | _ => none

/-- Models `len(re.findall(r'\b\w+\/\w+', content))` (non-overlapping). -/
def countPathsF : ℕ → Bool → List Char → ℕ
  | 0, _, _ => 0
  | _ + 1, _, [] => 0
  | fuel + 1, prevW, c :: cs =>
    if !prevW && isWordChar c then
      match matchPathAt (c :: cs) with
      | some rest => 1 + countPathsF fuel true rest
      | none => countPathsF fuel true cs
    else countPathsF fuel (isWordChar c) cs

def countPaths (c : String) : ℕ := countPathsF c.data.length false c.data

def lbraceC : Char := Char.ofNat 123

def rbraceC : Char := Char.ofNat 125

/-- Models `len(re.findall(r'\x7b[^\x7d]+\x7d', content))`: an opening brace,
one or more non-closing-brace characters, then a closing brace. -/
def countBracesF : ℕ → List Char → ℕ
  | 0, _ => 0
  | _ + 1, [] => 0
  | fuel + 1, c :: cs =>
    if c == lbraceC then
      let gap := cs.takeWhile (fun d => d != rbraceC)
      let rest := cs.drop gap.length
      match rest with
      | r :: rest2 =>
        if r == rbraceC && decide (1 ≤ gap.length) then 1 + countBracesF fuel rest2
        else countBracesF fuel cs
      | [] => countBracesF fuel cs
    else countBracesF fuel cs

def countBraces (c : String) : ℕ := countBracesF c.data.length c.data

/-- `jargon_count`: the sum of the four `jargon_patterns` match counts,
taken over the original (not lower-cased) content. -/
def jargonCount (c : String) : ℕ :=
  countAcronyms c + countMethodCalls c + countPaths c + countBraces c

/-- `_determine_complexity_level(tech_density, jargon_count)` exactly as in
the source: the thresholds 5 / 3 / 1 are compared against whatever number
is passed in as `tech_density`. -/
def determineComplexityLevel (density : ℚ) (jargon : ℕ) : String :=
  if density > 5 ∨ jargon > 20 then "Very High"
  else if density > 3 ∨ jargon > 10 then "High"
  else if density > 1 ∨ jargon > 5 then "Moderate"
  else "Low"

structure TechComplexity where
  technicalTermCount : ℕ
  technicalTermDensityPct : ℚ
  jargonCountF : ℕ
  complexityLevel : String
  deriving DecidableEq

/-- `_analyze_technical_complexity(content)`.  Note the call site: the
stored density field is the percentage `round(density * 100, 2)`, but
`_determine_complexity_level` receives the raw fraction `tech_term_density`
(before the `* 100`). -/
def analyzeTechnicalComplexity (c : String) : TechComplexity :=
  let density := techTermDensityRaw c
  { technicalTermCount := techTermCount c
    technicalTermDensityPct := round2 (density * 100)
    jargonCountF := jargonCount c
    complexityLevel := determineComplexityLevel density (jargonCount c) }

/-- Definition following the spec's words for C3: the complexity buckets
read against the technical-term density expressed as a PERCENTAGE. -/
def claimComplexityLevel (densityPct : ℚ) (jargon : ℕ) : String :=
  if densityPct > 5 ∨ jargon > 20 then "Very High"
  else if densityPct > 3 ∨ jargon > 10 then "High"
  else if densityPct > 1 ∨ jargon > 5 then "Moderate"
  else "Low"

structure ReadScores where
  fleschReadingEase : ℚ
  fleschKincaidGrade : ℚ
  gunningFog : ℚ
  colemanLiau : ℚ
  automatedReadability : ℚ
  smogIndex : ℚ
  deriving DecidableEq

/-- `_calculate_readability_scores(content)`.  The six `textstat` index
computations are modelled by `Option ℚ` arguments (`none` = that library
call raised).  A SINGLE `try/except` wraps the whole six-entry dict
construction, so the first failure aborts the block and the handler returns
the all-zero record; only when all six succeed are the rounded values
returned. -/
def calculateReadabilityScores (fre fkg gf cl ari smog : Option ℚ) : ReadScores :=
  match fre, fkg, gf, cl, ari, smog with
  | some a, some b, some c, some d, some e, some f =>
    ⟨round1 a, round1 b, round1 c, round1 d, round1 e, round1 f⟩
  | _, _, _, _, _, _ => ⟨0, 0, 0, 0, 0, 0⟩

/-- Definition following the spec's words for C4: each failed index alone
defaults to 0 while the others keep their independently computed values. -/
def specReadabilityScores (fre fkg gf cl ari smog : Option ℚ) : ReadScores :=
  ⟨(fre.map round1).getD 0, (fkg.map round1).getD 0, (gf.map round1).getD 0,
   (cl.map round1).getD 0, (ari.map round1).getD 0, (smog.map round1).getD 0⟩

/-- `_calculate_readability_score(readability_scores, complexity_analysis)`:
`flesch_score` and `grade_level` are the (rounded) dict entries and
`tech_density` is the percentage field `technical_term_density`. -/
def calcReadabilityScore (fleschScore gradeLevel techDensityPct : ℚ) : ℚ :=
  let fleschNormalized := max 0 (min 10 (fleschScore / 10))
  let gradePenalty := max 0 ((gradeLevel - 8) * 0.5)
  let techPenalty := techDensityPct * 0.3
  max 0 (min 10 (round1 (fleschNormalized - gradePenalty - techPenalty)))

/-! ### Models of the `textstat` collaborator

`textstat` is an external library (not part of this repository).  The
analyzers only need that its functions are deterministic, total on the
inputs used, and return the documented zero values on empty text; the
models below satisfy exactly that.  The syllable heuristic reuses the
repository's own `_count_syllables` logic from `style_analyzer.py`. -/

/-- The punctuation set stripped by `_count_syllables`
(`word.strip('.,!?;:"()[]' + braces)`). -/
def syllStripChars : List Char :=
  ['.', ',', '!', '?', ';', ':', '"', '(', ')', '[', ']', Char.ofNat 123, Char.ofNat 125]

/-- Models Python `str.strip(chars)`: remove the given characters from both
ends. -/
def stripCharsL (set : List Char) (l : List Char) : List Char :=
  ((l.dropWhile (fun c => set.contains c)).reverse.dropWhile (fun c => set.contains c)).reverse

/-- Counts vowel groups: +1 at each vowel whose predecessor is not a vowel
(`_count_syllables` main loop). -/
def vowelGroups : Bool → List Char → ℕ
  | _, [] => 0
  | prevV, c :: cs =>
    let isV : Bool := "aeiouy".data.contains c
    (if isV && !prevV then 1 else 0) + vowelGroups isV cs

/-- `_count_syllables(word)` from `style_analyzer.py`: lower-case, strip
punctuation, count vowel groups, subtract one for a silent final `e`,
floor at 1 (0 only when the stripped word is empty). -/
def countSyllablesWord (w : List Char) : ℕ :=
  let wl := stripCharsL syllStripChars (lowerL w)
  if wl.isEmpty then 0
  else
    let s := vowelGroups false wl
    let s := if wl.getLast? == some 'e' && decide (1 < s) then s - 1 else s
    max 1 s

/-- Model of `textstat.lexicon_count(content)`: the number of
whitespace-separated words (punctuation removal does not change the count). -/
def lexiconCountM (c : String) : ℕ := (wordsL c.data).length

/-- Model of `textstat.sentence_count(content)`: sentence-ending
punctuation splits the text; segments containing at least one word count.
On the empty string this is 0, matching the library. -/
def sentenceCountM (c : String) : ℕ :=
  ((splitChars (fun ch => ch == '.' || ch == '!' || ch == '?') c.data).filter
    (fun s => !(wordsL s).isEmpty)).length

/-- Model of `textstat.syllable_count(content)`. -/
def syllableCountM (c : String) : ℕ :=
  ((wordsL c.data).map countSyllablesWord).sum

/-- Average sentence length used inside the `textstat` formula models. -/
def aslM (c : String) : ℚ :=
  if sentenceCountM c = 0 then 0 else (lexiconCountM c : ℚ) / (sentenceCountM c : ℚ)

/-- Average syllables per word used inside the `textstat` formula models. -/
def aswM (c : String) : ℚ :=
  if lexiconCountM c = 0 then 0 else (syllableCountM c : ℚ) / (lexiconCountM c : ℚ)

/-- Model of `textstat.flesch_reading_ease` (standard published formula). -/
def fleschReadingEaseM (c : String) : ℚ := 206.835 - 1.015 * aslM c - 84.6 * aswM c

/-- Model of `textstat.flesch_kincaid_grade` (standard published formula). -/
def fleschKincaidGradeM (c : String) : ℚ := 0.39 * aslM c + 11.8 * aswM c - 15.59

/-- Model of `textstat.gunning_fog`: `0.4 * (ASL + 100 * hard-word share)`,
with words of three or more syllables counted as hard. -/
def gunningFogM (c : String) : ℚ :=
  let hard := ((wordsL c.data).filter (fun w => decide (3 ≤ countSyllablesWord w))).length
  let share : ℚ := if lexiconCountM c = 0 then 0 else (hard : ℚ) / (lexiconCountM c : ℚ)
  0.4 * (aslM c + 100 * share)

/-- Characters-per-word figure for the Coleman-Liau and ARI models. -/
def cpwM (c : String) : ℚ :=
  let letters := ((wordsL c.data).map List.length).sum
  if lexiconCountM c = 0 then 0 else (letters : ℚ) / (lexiconCountM c : ℚ)

/-- Model of `textstat.coleman_liau_index` (standard published formula,
letters and sentences per 100 words). -/
def colemanLiauM (c : String) : ℚ :=
  let spw : ℚ := if lexiconCountM c = 0 then 0 else (sentenceCountM c : ℚ) / (lexiconCountM c : ℚ)
  0.0588 * (100 * cpwM c) - 0.296 * (100 * spw) - 15.8

/-- Model of `textstat.automated_readability_index`. -/
def automatedReadabilityM (c : String) : ℚ := 4.71 * cpwM c + 0.5 * aslM c - 21.43

/-- Model of `textstat.smog_index`.  The published formula takes a square
root, which has no exact rational value; since no claim depends on the
numeric value of this index (only on determinism and the zero default),
the model keeps the radicand with the published affine constants. -/
def smogIndexM (c : String) : ℚ :=
  let poly := ((wordsL c.data).filter (fun w => decide (3 ≤ countSyllablesWord w))).length
  let r : ℚ := if sentenceCountM c = 0 then 0 else (poly : ℚ) * 30 / (sentenceCountM c : ℚ)
  1.043 * r + 3.1291

structure BasicMetrics where
  wordCountF : ℕ
  sentenceCountF : ℕ
  syllableCountF : ℕ
  avgSentenceLength : ℚ
  avgSyllablesPerWord : ℚ
  characterCount : ℕ
  paragraphCount : ℕ
  deriving DecidableEq

/-- Models Python `content.split(sep)` for a multi-character separator
(used with `'\n\n'`), keeping empty pieces. -/
def splitOnSepF (sep : List Char) : ℕ → List Char → List (List Char)
  | 0, l => [l]
  | _ + 1, [] => [[]]
  | fuel + 1, c :: cs =>
    if isPrefixL sep (c :: cs) then
      [] :: splitOnSepF sep fuel (cs.drop (sep.length - 1))
    else
      match splitOnSepF sep fuel cs with
      | [] => [[c]]
      | a :: as => (c :: a) :: as

def splitOnSep (sep : List Char) (l : List Char) : List (List Char) :=
  if sep.isEmpty then [l] else splitOnSepF sep l.length l

/-- `_calculate_basic_metrics(content)`: the two averages are guarded
against zero denominators exactly as in the source. -/
def calcBasicMetrics (c : String) : BasicMetrics :=
  let sentences := sentenceCountM c
  let words := lexiconCountM c
  let syllables := syllableCountM c
  { wordCountF := words
    sentenceCountF := sentences
    syllableCountF := syllables
    avgSentenceLength :=
      if 0 < sentences then round1 ((words : ℚ) / (sentences : ℚ)) else 0
    avgSyllablesPerWord :=
      if 0 < words then round2 ((syllables : ℚ) / (words : ℚ)) else 0
    characterCount := c.data.length
    paragraphCount :=
      ((splitOnSep ['\n', '\n'] c.data).filter (fun p => !(trimL p).isEmpty)).length }

/-! ### Style analyzer (`style_analyzer.py`) -/

/-- `_split_into_sentences(content)`: split on `.`/`!`/`?`, strip each
piece, keep the non-empty ones longer than 5 characters. -/
def splitIntoSentences (c : String) : List (List Char) :=
  ((splitChars (fun ch => ch == '.' || ch == '!' || ch == '?') c.data).map trimL).filter
    (fun s => !s.isEmpty && decide (5 < s.length))

def auxBeForms : List String := ["is", "are", "was", "were", "been", "being"]

def auxGetForms : List String := ["get", "gets", "got", "getting"]

/-- Strips trailing non-word characters from a token (the regex `\b`
boundary after `\w*ed` / `\w*en` lets trailing punctuation follow). -/
def tokenCore (w : List Char) : List Char :=
  (w.reverse.dropWhile (fun c => !isWordChar c)).reverse

/-- Word-level model of the three passive regex families
(`(is|are|was|were|been|being)\s+\w*ed`, the same with `\w*en`, and
`(get|gets|got|getting)\s+\w*ed`): an auxiliary token immediately followed
by a token whose word-core ends in the participle suffix. -/
def passivePairScan : List (List Char) → Bool
  | a :: b :: rest =>
    (decide (auxBeForms.any (fun f => f.data = a)) &&
      (endsWithL "ed".data (tokenCore b) || endsWithL "en".data (tokenCore b))) ||
    (decide (auxGetForms.any (fun f => f.data = a)) && endsWithL "ed".data (tokenCore b)) ||
    passivePairScan (b :: rest)
  | _ => false

/-- One sentence counts as passive if any of the three patterns matches in
its lower-cased text (`_count_passive_voice`, one hit per sentence). -/
def sentenceHasPassive (s : List Char) : Bool :=
  passivePairScan (wordsL (lowerL s))

def countPassiveVoice (sentences : List (List Char)) : ℕ :=
  (sentences.filter sentenceHasPassive).length

/-- `passive_count / len(sentences) if sentences else 0`. -/
def passiveVoiceFrac (c : String) : ℚ :=
  let sentences := splitIntoSentences c
  if sentences.isEmpty then 0
  else (countPassiveVoice sentences : ℚ) / (sentences.length : ℚ)

def imperativeStarters : List String :=
  ["click", "select", "choose", "enter", "type", "navigate", "go",
   "open", "close", "save", "create", "add", "remove", "delete",
   "configure", "set", "enable", "disable", "make", "ensure",
   "check", "verify", "confirm", "install", "download"]

/-- `_is_imperative(sentence)`: the first whitespace token of the
lower-cased sentence is one of the fixed starters. -/
def isImperativeSentence (s : List Char) : Bool :=
  match wordsL (lowerL s) with
  | w :: _ => decide (imperativeStarters.any (fun f => f.data = w))
  | [] => false

def countImperativeSentences (sentences : List (List Char)) : ℕ :=
  (sentences.filter isImperativeSentence).length

structure SentenceTypes where
  declarative : ℕ
  interrogative : ℕ
  imperative : ℕ
  exclamatory : ℕ
  deriving DecidableEq

/-- `_analyze_sentence_types`.  Sentences were already split on `.!?`, so
the `endswith` branches are kept for fidelity although never taken. -/
def analyzeSentenceTypes (sentences : List (List Char)) : SentenceTypes :=
  sentences.foldl
    (fun acc s =>
      let t := trimL s
      if t.getLast? == some '?' then { acc with interrogative := acc.interrogative + 1 }
      else if t.getLast? == some '!' then { acc with exclamatory := acc.exclamatory + 1 }
      else if isImperativeSentence t then { acc with imperative := acc.imperative + 1 }
      else { acc with declarative := acc.declarative + 1 })
    ⟨0, 0, 0, 0⟩

def positiveWords : List String :=
  ["easy", "simple", "quick", "efficient", "helpful", "useful",
   "convenient", "smooth", "seamless", "intuitive", "powerful"]

def negativeWords : List String :=
  ["difficult", "complex", "complicated", "hard", "challenging",
   "confusing", "problem", "issue", "error", "fail", "wrong"]

def confidentWords : List String :=
  ["will", "must", "should", "ensure", "guarantee", "definitely",
   "certainly", "always", "never", "exactly"]

structure ToneIndicators where
  positiveCount : ℕ
  negativeCount : ℕ
  confidentCount : ℕ
  deriving DecidableEq

/-- `_analyze_tone_indicators(content)`; `tone_balance` is
`positive - negative` (possibly negative, hence `ℤ`). -/
def analyzeToneIndicators (c : String) : ToneIndicators :=
  let lc := lowerL c.data
  ⟨vocabCount lc positiveWords, vocabCount lc negativeWords, vocabCount lc confidentWords⟩

def toneBalance (t : ToneIndicators) : ℤ := (t.positiveCount : ℤ) - t.negativeCount

def formalWords : List String :=
  ["utilize", "commence", "terminate", "subsequently", "furthermore",
   "nevertheless", "therefore", "consequently", "accordingly"]

def informalWords : List String :=
  ["use", "start", "end", "then", "also", "but", "so", "okay",
   "ok", "yeah", "yep", "nope", "gonna", "wanna"]

def contractionsList : List String :=
  ["don\x27t", "can\x27t", "won\x27t", "isn\x27t", "aren\x27t", "wasn\x27t", "weren\x27t",
   "haven\x27t", "hasn\x27t", "hadn\x27t", "couldn\x27t", "wouldn\x27t", "shouldn\x27t"]

/-- `formality_score = formal - informal - contractions` from
`_analyze_formality`. -/
def formalityScore (c : String) : ℤ :=
  let lc := lowerL c.data
  (vocabCount lc formalWords : ℤ) - vocabCount lc informalWords - vocabCount lc contractionsList

def formalityLevel (score : ℤ) : String :=
  if score > 5 then "Very Formal"
  else if score > 0 then "Formal"
  else if score > -5 then "Neutral"
  else "Informal"

/-- `_determine_voice_quality(passive_ratio, tone_analysis)`. -/
def determineVoiceQuality (passiveFrac : ℚ) (tBalance : ℤ) : String :=
  if passiveFrac < 0.1 ∧ tBalance > 0 then "Excellent"
  else if passiveFrac < 0.2 ∧ tBalance ≥ 0 then "Good"
  else if passiveFrac < 0.3 then "Fair"
  else "Needs Improvement"

/-- The bucket lookup in `_calculate_style_score`:
`{'Excellent': 10, 'Good': 8, 'Fair': 6, 'Needs Improvement': 4}.get(vq, 5)`. -/
def voiceScoreOf (vq : String) : ℚ :=
  if vq = "Excellent" then 10
  else if vq = "Good" then 8
  else if vq = "Fair" then 6
  else if vq = "Needs Improvement" then 4
  else 5

def fillerWordsVocab : List String :=
  ["very", "really", "quite", "rather", "somewhat", "fairly",
   "pretty", "just", "only", "simply", "actually", "basically",
   "literally", "obviously", "clearly", "certainly", "definitely"]

/-- `filler_count / len(content.split()) if content.split() else 0`
from `_analyze_filler_words`. -/
def fillerDensity (c : String) : ℚ :=
  if wordCount c = 0 then 0
  else (vocabCount (lowerL c.data) fillerWordsVocab : ℚ) / (wordCount c : ℚ)

def clauseIndicators : List String :=
  ["and", "but", "or", "because", "since", "when", "where",
   "while", "although", "though", "if", "unless", "that", "which", "who"]

/-- Clause count of one sentence:
`1 + sum(sentence_lower.count(' ' + w + ' ') for w in indicators)`. -/
def clauseCount (s : List Char) : ℕ :=
  1 + (clauseIndicators.map
    (fun w => pyCountL (lowerL s) ((' ' :: w.data) ++ [' ']))).sum

structure SentenceComplexity where
  avgClauses : ℚ
  complexSentences : ℕ
  complexityFrac : ℚ
  deriving DecidableEq

/-- `_analyze_sentence_complexity(sentences)`. -/
def analyzeSentenceComplexity (sentences : List (List Char)) : SentenceComplexity :=
  if sentences.isEmpty then ⟨0, 0, 0⟩
  else
    let clauses := sentences.map clauseCount
    let complexCount := (clauses.filter (fun n => decide (2 < n))).length
    ⟨round1 ((clauses.sum : ℚ) / (sentences.length : ℚ)), complexCount,
     (complexCount : ℚ) / (sentences.length : ℚ)⟩

def userPronouns : List String := ["you", "your", "yours"]

def systemPronouns : List String := ["we", "our", "us", "the system", "the application"]

/-- `user_count / (user_count + system_count)` with the zero guard, from
`_analyze_user_focus`. -/
def userFocusFrac (c : String) : ℚ :=
  let lc := lowerL c.data
  let u := vocabCount lc userPronouns
  let s := vocabCount lc systemPronouns
  if 0 < u + s then (u : ℚ) / ((u + s : ℕ) : ℚ) else 0

def actionVerbs : List String :=
  ["click", "select", "choose", "enter", "type", "navigate", "go",
   "open", "close", "save", "create", "add", "remove", "delete",
   "configure", "set", "enable", "disable", "start", "stop",
   "install", "download", "upload", "copy", "paste", "edit"]

def actionVerbCount (c : String) : ℕ := vocabCount (lowerL c.data) actionVerbs

/-- `imperative_count / len(sentences) if sentences else 0`. -/
def imperativeFrac (c : String) : ℚ :=
  let sentences := splitIntoSentences c
  if sentences.isEmpty then 0
  else (countImperativeSentences sentences : ℚ) / (sentences.length : ℚ)

/-- `capitalization_rate` from `_analyze_capitalization`: share of
sentences whose first character is upper case. -/
def capitalizationRate (c : String) : ℚ :=
  let sentences := splitIntoSentences c
  if sentences.isEmpty then 0
  else
    let proper := (sentences.filter
      (fun s => match (trimL s).head? with | some ch => ch.isUpper | none => false)).length
    (proper : ℚ) / (sentences.length : ℚ)

/-- `punctuation_variety`: how many of period, comma, semicolon, colon
occur at least once. -/
def punctuationVariety (c : String) : ℕ :=
  ([pyCountL c.data ['.'], pyCountL c.data [','], pyCountL c.data [';'],
    pyCountL c.data [':']].filter (fun n => decide (0 < n))).length

def terminologyVariations : List (List String) :=
  [["email", "e-mail"],
   ["website", "web site"],
   ["login", "log in", "log-in"],
   ["setup", "set up", "set-up"]]

/-- `issues_count` from `_analyze_terminology`: a variation group is an
issue when more than one of its variants occurs in the content. -/
def terminologyIssuesCount (c : String) : ℕ :=
  let lc := lowerL c.data
  (terminologyVariations.filter
    (fun grp => decide (1 < (grp.filter (fun v => containsSub v.data lc)).length))).length

/-- `_count_complex_words(words)`: words with three or more syllables. -/
def countComplexWords (ws : List (List Char)) : ℕ :=
  (ws.filter (fun w => decide (3 ≤ countSyllablesWord w))).length

/-- `avg_sentence_length` of `_analyze_clarity`:
`len(words) / len(sentences) if sentences else 0`. -/
def styleAvgSentenceLength (c : String) : ℚ :=
  let sentences := splitIntoSentences c
  if sentences.isEmpty then 0 else ((wordsL c.data).length : ℚ) / (sentences.length : ℚ)

/-- `complex_word_ratio` of `_analyze_clarity` with its zero guard. -/
def complexWordFrac (c : String) : ℚ :=
  let ws := wordsL c.data
  if ws.isEmpty then 0 else (countComplexWords ws : ℚ) / (ws.length : ℚ)

/-- `_grade_clarity(avg_sentence_length, complex_word_ratio,
readability_score)`: three additive threshold bands, capped at 10. -/
def gradeClarity (avgSentenceLength complexWordFrac readabilityScore : ℚ) : ℚ :=
  let s : ℚ :=
    (if avgSentenceLength ≤ 20 then 3
     else if avgSentenceLength ≤ 25 then 2
     else if avgSentenceLength ≤ 30 then 1 else 0) +
    (if complexWordFrac ≤ 0.1 then 3
     else if complexWordFrac ≤ 0.15 then 2
     else if complexWordFrac ≤ 0.2 then 1 else 0) +
    (if readabilityScore ≥ 70 then 4
     else if readabilityScore ≥ 60 then 3
     else if readabilityScore ≥ 50 then 2
     else if readabilityScore ≥ 40 then 1 else 0)
  min 10 s

/-- `_grade_action_orientation(action_verb_count, imperative_ratio,
word_count)`: two additive bands, capped at 10, 0 on empty content. -/
def gradeActionOrientation (avc : ℕ) (imFrac : ℚ) (wc : ℕ) : ℚ :=
  if wc = 0 then 0
  else
    let actionDensity : ℚ := (avc : ℚ) / (wc : ℚ)
    let s : ℚ :=
      (if actionDensity ≥ 0.02 then 4
       else if actionDensity ≥ 0.015 then 3
       else if actionDensity ≥ 0.01 then 2
       else if actionDensity ≥ 0.005 then 1 else 0) +
      (if imFrac ≥ 0.2 then 4
       else if imFrac ≥ 0.15 then 3
       else if imFrac ≥ 0.1 then 2
       else if imFrac ≥ 0.05 then 1 else 0)
    min 10 s

/-- `_calculate_consistency_score(capitalization, punctuation,
terminology)`: start at 7, adjust for capitalization, subtract half a
point per terminology issue, clamp to [0, 10]. -/
def calcConsistencyScore (capRate : ℚ) (issues : ℕ) : ℚ :=
  let s : ℚ := 7 + (if capRate ≥ 0.9 then 1 else if capRate < 0.7 then -1 else 0)
  max 0 (min 10 (s - (issues : ℚ) * 0.5))

/-- `_calculate_style_score`: `voice*0.25 + clarity*0.30 + action*0.25 +
consistency*0.20`, rounded to 1 decimal and NOT clamped. -/
def calcStyleScore (vq : String) (clarityGrade actionGrade consistencyScore : ℚ) : ℚ :=
  round1 (voiceScoreOf vq * 0.25 + clarityGrade * 0.30 +
    actionGrade * 0.25 + consistencyScore * 0.20)

/-! ### Structure analyzer (`structure_analyzer.py`) -/

structure Heading where
  level : ℕ
  text : String
  deriving DecidableEq

structure Paragraph where
  text : List Char
  wordCountP : ℕ
  deriving DecidableEq

structure ListBlock where
  kindL : String
  itemCount : ℕ
  deriving DecidableEq

/-- Insertion sort on naturals, models Python `sorted`. -/
def insertSorted (n : ℕ) : List ℕ → List ℕ
  | [] => [n]
  | m :: ms => if n ≤ m then n :: m :: ms else m :: insertSorted n ms

def sortNat : List ℕ → List ℕ
  | [] => []
  | n :: ns => insertSorted n (sortNat ns)

/-- `sorted(set(levels))`. -/
def sortedUniqueLevels (levels : List ℕ) : List ℕ := sortNat levels.dedup

/-- The gap pairs of `_analyze_headings`: adjacent used levels differing by
more than 1. -/
def gapsOf : List ℕ → List (ℕ × ℕ)
  | a :: b :: rest => (if 1 < b - a then [(a, b)] else []) ++ gapsOf (b :: rest)
  | _ => []

/-- `max_gap` over the collected gap pairs. -/
def maxGapOf (l : List ℕ) : ℕ :=
  (gapsOf l).foldl (fun m p => max m (p.2 - p.1)) 0

/-- Minimum of a level list (`min(levels)`, only called on non-empty input). -/
def minLevel : List ℕ → ℕ
  | [] => 0
  | n :: ns => ns.foldl Nat.min n

/-- `_calculate_hierarchy_score(levels, gaps)`: base 5, +2 for a level-1
heading, −1.5 per gap, ±distribution bonus, clamp [0,10] after rounding. -/
def calcHierarchyScore (levels : List ℕ) (gaps : List (ℕ × ℕ)) : ℚ :=
  if levels.isEmpty then 0
  else
    let uniqueCount := levels.dedup.length
    let s : ℚ := 5 + (if minLevel levels = 1 then 2 else 0) - (gaps.length : ℚ) * 1.5 +
      (if 2 ≤ uniqueCount ∧ uniqueCount ≤ 4 then 2 else if 4 < uniqueCount then -1 else 0)
    max 0 (min 10 (round1 s))

structure HeadingAnalysis where
  totalHeadings : ℕ
  levelsUsed : List ℕ
  hierarchyScore : ℚ
  hasGaps : Bool
  maxGap : ℕ
  gapsList : List (ℕ × ℕ)
  deriving DecidableEq

/-- `_analyze_headings(headings)`: the empty input short-circuits to the
fixed record with `has_gaps: True`, `max_gap: 0`, `hierarchy_score: 0`. -/
def analyzeHeadings (headings : List Heading) : HeadingAnalysis :=
  if headings.isEmpty then
    { totalHeadings := 0, levelsUsed := [], hierarchyScore := 0,
      hasGaps := true, maxGap := 0, gapsList := [] }
  else
    let levels := headings.map (·.level)
    let uniq := sortedUniqueLevels levels
    let gaps := gapsOf uniq
    { totalHeadings := headings.length
      levelsUsed := uniq
      hierarchyScore := calcHierarchyScore levels gaps
      hasGaps := decide (0 < gaps.length)
      maxGap := maxGapOf uniq
      gapsList := gaps }

structure ParagraphAnalysis where
  totalParagraphs : ℕ
  avgLength : ℚ
  shortParagraphs : ℕ
  mediumParagraphs : ℕ
  longParagraphs : ℕ
  veryLongParagraphs : ℕ
  deriving DecidableEq

/-- `_analyze_paragraphs(paragraphs, content)`: fall back to splitting the
content on blank lines when no structured paragraphs are given. -/
def analyzeParagraphs (paras : List Paragraph) (c : String) : ParagraphAnalysis :=
  let paras :=
    if paras.isEmpty then
      (((splitOnSep ['\n', '\n'] c.data).map trimL).filter (fun p => !p.isEmpty)).map
        (fun p => ⟨p, (wordsL p).length⟩)
    else paras
  if paras.isEmpty then ⟨0, 0, 0, 0, 0, 0⟩
  else
    let wcs := paras.map (·.wordCountP)
    { totalParagraphs := paras.length
      avgLength := round1 ((wcs.sum : ℚ) / (wcs.length : ℚ))
      shortParagraphs := (wcs.filter (fun n => decide (n < 20))).length
      mediumParagraphs := (wcs.filter (fun n => decide (20 ≤ n ∧ n ≤ 100))).length
      longParagraphs := (wcs.filter (fun n => decide (100 < n))).length
      veryLongParagraphs := (wcs.filter (fun n => decide (200 < n))).length }

def transitionWords : List String :=
  ["first", "second", "third", "next", "then", "finally", "lastly",
   "however", "therefore", "furthermore", "moreover", "additionally",
   "in contrast", "on the other hand", "as a result", "consequently"]

def stepIndicatorPhrases : List String :=
  ["step 1", "step 2", "1.", "2.", "3.", "first step", "next step"]

/-- Count of adjacent heading-level jumps larger than 2. -/
def bigJumps : List ℕ → ℕ
  | a :: b :: rest => (if 2 < max a b - min a b then 1 else 0) + bigJumps (b :: rest)
  | _ => 0

/-- `_analyze_heading_flow(headings)`. -/
def headingFlowScore (headings : List Heading) : ℚ :=
  if headings.length < 2 then 5
  else
    let levels := headings.map (·.level)
    let s : ℚ := 7 - (if 4 < levels.dedup.length then 1 else 0)
    max 0 (min 10 (s - (bigJumps levels : ℚ) * 0.5))

structure FlowAnalysis where
  transitionWordCount : ℕ
  hasClearStepsFlow : Bool
  headingFlowScoreF : ℚ
  flowQuality : String
  deriving DecidableEq

/-- `_determine_flow_quality(transition_count, has_steps, heading_flow_score)`. -/
def determineFlowQuality (transitionCount : ℕ) (hasSteps : Bool) (hfs : ℚ) : String :=
  let s := max 0 (min 10 (hfs + (if 5 < transitionCount then 1 else 0) +
    (if hasSteps then 1 else 0)))
  if s ≥ 8 then "Excellent"
  else if s ≥ 6 then "Good"
  else if s ≥ 4 then "Fair"
  else "Poor"

/-- `_analyze_information_flow(content, headings)`. -/
def analyzeInformationFlow (c : String) (headings : List Heading) : FlowAnalysis :=
  let lc := lowerL c.data
  let transitions := vocabCount lc transitionWords
  let hasSteps := stepIndicatorPhrases.any (fun p => containsSub p.data lc)
  let hfs := headingFlowScore headings
  ⟨transitions, hasSteps, hfs, determineFlowQuality transitions hasSteps hfs⟩

def introTerms : List String := ["introduction", "overview", "getting started", "about"]

def conclusionTerms : List String := ["conclusion", "summary", "next steps", "what\x27s next"]

/-- `_has_introduction(headings)`: one of the first three headings contains
an introduction term (case-insensitive). -/
def hasIntroduction (headings : List Heading) : Bool :=
  (headings.take 3).any
    (fun h => introTerms.any (fun t => containsSub t.data (lowerL h.text.data)))

/-- `_has_conclusion(headings)`: one of the last three headings contains a
conclusion term (case-insensitive). -/
def hasConclusion (headings : List Heading) : Bool :=
  (headings.drop (headings.length - 3)).any
    (fun h => conclusionTerms.any (fun t => containsSub t.data (lowerL h.text.data)))

/-- `_calculate_organization_score(has_intro, has_conclusion, list_count,
heading_count)`. -/
def calcOrganizationScore (hasIntro hasConcl : Bool) (listCount headingCount : ℕ) : ℚ :=
  let s : ℚ := 5 + (if hasIntro then 1.5 else 0) + (if hasConcl then 1.5 else 0) +
    (if 0 < listCount then 1 else 0) + (if 3 ≤ headingCount then 1 else 0) +
    (if 5 ≤ headingCount then 0.5 else 0)
  max 0 (min 10 (round1 s))

/-- `_calculate_structure_score(heading_analysis, paragraph_analysis,
organization_analysis)`: 0.3 hierarchy + 0.3 organization + 0.4 paragraph
score (7 base, −2 if average length > 150, −1 if > 100), clamped. -/
def calcStructureScore (hierarchyScore orgScore avgLength : ℚ) : ℚ :=
  let para : ℚ := (7 - (if 150 < avgLength then 2 else if 100 < avgLength then 1 else 0)) * 0.4
  max 0 (min 10 (round1 (hierarchyScore * 0.3 + orgScore * 0.3 + para)))

/-! ### Completeness analyzer (`completeness_analyzer.py`) -/

structure CodeBlock where
  kindC : String
  textC : List Char
  language : String
  deriving DecidableEq

structure Image where
  alt : String
  deriving DecidableEq

structure Link where
  external : Bool
  deriving DecidableEq

def exampleKeywords : List String :=
  ["example", "for example", "for instance", "such as", "like this",
   "sample", "demonstration", "illustration", "case study"]

def exampleMentions (c : String) : ℕ := vocabCount (lowerL c.data) exampleKeywords

/-- `_determine_example_quality(example_mentions, code_blocks, images,
content)` (the content argument is unused in the source). -/
def determineExampleQuality (mentions codeCount imageCount : ℕ) : ℕ :=
  let s :=
    (if 0 < mentions then 2 else 0) + (if 2 < mentions then 1 else 0) +
    (if 0 < codeCount then 3 else 0) + (if 2 < codeCount then 1 else 0) +
    (if 0 < imageCount then 2 else 0)
  let variety :=
    (if 0 < mentions then 1 else 0) + (if 0 < codeCount then 1 else 0) +
    (if 0 < imageCount then 1 else 0)
  min 10 (s + (if 2 ≤ variety then 1 else 0) + (if variety = 3 then 1 else 0))

def instructionKeywords : List String :=
  ["step", "click", "select", "choose", "enter", "type", "navigate",
   "open", "close", "save", "create", "delete", "configure", "set up"]

def instructionWordCount (c : String) : ℕ := vocabCount (lowerL c.data) instructionKeywords

/-- Models `len(re.findall(r'step \d+', content_lower))`: the literal
`"step "` followed by at least one digit; the match consumes the digits. -/
def countStepNumF : ℕ → List Char → ℕ
  | 0, _ => 0
  | _ + 1, [] => 0
  | fuel + 1, c :: cs =>
    let l := c :: cs
    let pat := "step ".data
    if isPrefixL pat l then
      let rest := l.drop pat.length
      match rest with
      | d :: _ =>
        if d.isDigit then 1 + countStepNumF fuel (rest.dropWhile Char.isDigit)
        else countStepNumF fuel cs
      | [] => 0
    else countStepNumF fuel cs

/-- Models `len(re.findall(r'\d+\.', content_lower))`: a maximal digit run
followed by a period (no match is possible inside a run whose end is not
followed by a period, so the scan skips whole runs). -/
def countDigitDotF : ℕ → List Char → ℕ
  | 0, _ => 0
  | _ + 1, [] => 0
  | fuel + 1, c :: cs =>
    if c.isDigit then
      let rest := cs.dropWhile Char.isDigit
      match rest with
      | '.' :: rest2 => 1 + countDigitDotF fuel rest2
      | _ => countDigitDotF fuel rest
    else countDigitDotF fuel cs

/-- Models `len(re.findall(word + r'[,\s]', content_lower))`: the literal
word followed by a comma or whitespace (which the match consumes). -/
def countWordSepF (pat : List Char) : ℕ → List Char → ℕ
  | 0, _ => 0
  | _ + 1, [] => 0
  | fuel + 1, c :: cs =>
    let l := c :: cs
    if isPrefixL pat l then
      match l.drop pat.length with
      | d :: rest =>
        if d == ',' || d.isWhitespace then 1 + countWordSepF pat fuel rest
        else countWordSepF pat fuel cs
      | [] => 0
    else countWordSepF pat fuel cs

def seqWords : List String := ["first", "second", "third", "then", "next", "finally", "lastly"]

/-- `step_indicators`: the summed match counts of the nine step patterns. -/
def stepIndicators (c : String) : ℕ :=
  let lc := lowerL c.data
  countStepNumF lc.length lc + countDigitDotF lc.length lc +
    (seqWords.map (fun w => countWordSepF w.data lc.length lc)).sum

/-- `has_clear_steps = step_indicators > 2`. -/
def hasClearSteps (c : String) : Bool := decide (2 < stepIndicators c)

/-- `instruction_density` with its zero guard. -/
def instructionDensity (c : String) : ℚ :=
  if wordCount c = 0 then 0 else (instructionWordCount c : ℚ) / (wordCount c : ℚ)

def depthKeywords : List String :=
  ["why", "how", "what", "when", "where", "because", "reason",
   "purpose", "benefit", "advantage", "important", "note", "warning",
   "tip", "remember", "consider", "alternatively", "option"]

def explanationPhrases : List String :=
  ["this is because", "the reason", "in order to", "so that",
   "this means", "in other words", "specifically", "particularly"]

def prereqKeywords : List String :=
  ["prerequisite", "requirement", "before", "first", "ensure", "make sure"]

def troubleshootKeywords : List String :=
  ["troubleshoot", "problem", "issue", "error", "fail", "not working",
   "common issues", "frequently asked", "faq"]

/-- `_calculate_information_richness`: per-1000-word normalized depth and
explanation contributions (capped at 3 and 2), plus fixed bonuses, capped
at 10; 0 on empty content. -/
def calcInformationRichness (depthI expl prereq trouble wordCnt : ℕ) : ℚ :=
  if wordCnt = 0 then 0
  else
    let nd : ℚ := (depthI : ℚ) / (wordCnt : ℚ) * 1000
    let ne : ℚ := (expl : ℚ) / (wordCnt : ℚ) * 1000
    min 10 (min 3 nd + min 2 ne + (if 0 < prereq then 2 else 0) +
      (if 0 < trouble then 2 else 0) + (if 500 < wordCnt then 1 else 0))

/-- Returns the suffix after the first occurrence of `pat`, if any. -/
def afterFirstF (pat : List Char) : ℕ → List Char → Option (List Char)
  | 0, _ => none
  | _ + 1, [] => none
  | fuel + 1, c :: cs =>
    if isPrefixL pat (c :: cs) then some (cs.drop (pat.length - 1))
    else afterFirstF pat fuel cs

def afterFirst (pat : List Char) (l : List Char) : Option (List Char) :=
  if pat.isEmpty then some l else afterFirstF pat l.length l

/-- `re.search(a .* b, text)` for literal delimiters: `a` occurs and `b`
occurs after it (the models ignore the single-line restriction of `.`,
which no claim exercises). -/
def containsPair (a b : List Char) (l : List Char) : Bool :=
  match afterFirst a l with
  | some rest => containsSub b rest
  | none => false

/-- `_check_code_comments(code_blocks)`: the four comment regexes
`//.*`, `/\*.*\*/`, `#.*`, `<!--.*-->` reduce for literal text to the
substring tests below. -/
def checkCodeComments (cbs : List CodeBlock) : Bool :=
  cbs.any (fun cb =>
    containsSub "//".data cb.textC ||
    containsPair "/*".data "*/".data cb.textC ||
    containsSub "#".data cb.textC ||
    containsPair "<!--".data "-->".data cb.textC)

structure SupportAnalysis where
  hasCodeExamples : Bool
  codeVariety : ℕ
  wellCommentedCode : Bool
  hasImages : Bool
  imagesPerThousandWords : ℚ
  descriptiveImages : ℕ
  totalLinks : ℕ
  externalLinks : ℕ
  internalLinks : ℕ
  hasReferences : Bool
  overallSupportQuality : ℚ
  deriving DecidableEq

/-- `_calculate_support_quality(code_support, visual_support,
reference_support)`: 5 base plus non-negative bonuses, capped at 10
(never clamped from below). -/
def calcSupportQuality (hasCode wellCommented hasImgs : Bool)
    (descriptive : ℕ) (hasRefs : Bool) (externalCount : ℕ) : ℚ :=
  let s : ℚ := 5 + (if hasCode then 1.5 else 0) + (if wellCommented then 0.5 else 0) +
    (if hasImgs then 1.5 else 0) + (if 0 < descriptive then 0.5 else 0) +
    (if hasRefs then 1 else 0) + (if 0 < externalCount then 0.5 else 0)
  min 10 s

/-- `_analyze_supporting_materials(code_blocks, images, links)`. -/
def analyzeSupportingMaterials (cbs : List CodeBlock) (imgs : List Image)
    (lks : List Link) : SupportAnalysis :=
  let hasCode := !cbs.isEmpty
  let variety := ((cbs.map (·.language)).dedup).length
  let commented := checkCodeComments cbs
  let hasImgs := !imgs.isEmpty
  let descriptive := (imgs.filter (fun i => decide (10 < i.alt.data.length))).length
  let externalCount := (lks.filter (·.external)).length
  let hasRefs := !lks.isEmpty
  { hasCodeExamples := hasCode
    codeVariety := variety
    wellCommentedCode := commented
    hasImages := hasImgs
    imagesPerThousandWords := (imgs.length : ℚ) / 1000
    descriptiveImages := descriptive
    totalLinks := lks.length
    externalLinks := externalCount
    internalLinks := (lks.filter (fun l => !l.external)).length
    hasReferences := hasRefs
    overallSupportQuality :=
      calcSupportQuality hasCode commented hasImgs descriptive hasRefs externalCount }

/-- `_calculate_completeness_score`: equal 0.25 weights over example
quality, instruction score (7 base with two deductions), information
richness and support quality; clamp [0,10] after rounding. -/
def calcCompletenessScore (exampleQuality : ℕ) (clearSteps : Bool)
    (instrDensity richness supportQuality : ℚ) : ℚ :=
  let instructionScore : ℚ :=
    (7 - (if clearSteps then 0 else 2) - (if instrDensity < 0.02 then 1 else 0)) * 0.25
  max 0 (min 10 (round1 ((exampleQuality : ℚ) * 0.25 + instructionScore +
    richness * 0.25 + supportQuality * 0.25)))

/-! ### Aggregator (`documentation_analyzer.py`) -/

/-- `_calculate_overall_score(readability, structure, completeness,
style)`: each result that contains a `score` field (modelled by `some`)
contributes its score with weight 0.25; the weighted sum is divided by the
total weight and rounded; 0.0 when no scores are present. -/
def overallScore (r s c st : Option ℚ) : ℚ :=
  let entries : List (ℚ × ℚ) :=
    (match r with | some x => [(x, 0.25)] | none => []) ++
    (match s with | some x => [(x, 0.25)] | none => []) ++
    (match c with | some x => [(x, 0.25)] | none => []) ++
    (match st with | some x => [(x, 0.25)] | none => [])
  if entries.isEmpty then 0
  else round1 (((entries.map (fun p => p.1 * p.2)).sum) / ((entries.map Prod.snd).sum))

/-- Definition following the spec's words for C1: the plain unweighted
arithmetic mean of the present scores, rounded to 1 decimal, 0.0 when no
scores are present. -/
def specOverallScore (r s c st : Option ℚ) : ℚ :=
  let scores := [r, s, c, st].filterMap id
  if scores.isEmpty then 0 else round1 (scores.sum / (scores.length : ℚ))

/-! ### The full pipeline (`analyze_document`) for determinism (C8)

Each analyzer's `analyze` method computes its numeric metrics purely from
the document features and makes exactly one collaborator call to the LLM,
whose text lands only in the commentary field (with the fixed fallback
string on failure).  The collaborator is modelled as
`String → Except String String`. -/

def Llm : Type := String → Except String String

structure DocumentFeatures where
  content : String
  headings : List Heading
  paragraphs : List Paragraph
  listBlocks : List ListBlock
  images : List Image
  links : List Link
  codeBlocks : List CodeBlock

/-- One collaborator call with the per-analyzer fallback text
(`try: ... except: return fallback`). -/
def llmCall (llm : Llm) (prompt fallback : String) : String :=
  match llm prompt with
  | .ok t => t
  | .error _ => fallback

structure ReadabilityNumeric where
  score : ℚ
  basic : BasicMetrics
  scores : ReadScores
  complexity : TechComplexity
  deriving DecidableEq

structure ReadabilityResult where
  numeric : ReadabilityNumeric
  marketerAnalysis : String

/-- `ReadabilityAnalyzer.analyze`: all numeric fields are functions of the
content alone; the LLM call feeds only `marketer_analysis`. -/
def readabilityAnalyze (c : String) (llm : Llm) : ReadabilityResult :=
  let rs := calculateReadabilityScores (some (fleschReadingEaseM c))
    (some (fleschKincaidGradeM c)) (some (gunningFogM c)) (some (colemanLiauM c))
    (some (automatedReadabilityM c)) (some (smogIndexM c))
  let comp := analyzeTechnicalComplexity c
  { numeric :=
      { score := calcReadabilityScore rs.fleschReadingEase rs.fleschKincaidGrade
          comp.technicalTermDensityPct
        basic := calcBasicMetrics c
        scores := rs
        complexity := comp }
    marketerAnalysis := llmCall llm c
      "Unable to perform marketer-specific analysis due to API error" }

structure StructureNumeric where
  score : ℚ
  headingA : HeadingAnalysis
  paragraphA : ParagraphAnalysis
  flowA : FlowAnalysis
  hasIntro : Bool
  hasConcl : Bool
  organizationScore : ℚ
  deriving DecidableEq

structure StructureResult where
  numeric : StructureNumeric
  llmAnalysis : String

/-- `StructureAnalyzer.analyze`. -/
def structureAnalyze (d : DocumentFeatures) (llm : Llm) : StructureResult :=
  let ha := analyzeHeadings d.headings
  let pa := analyzeParagraphs d.paragraphs d.content
  let fa := analyzeInformationFlow d.content d.headings
  let hi := hasIntroduction d.headings
  let hc := hasConclusion d.headings
  let os := calcOrganizationScore hi hc d.listBlocks.length d.headings.length
  { numeric :=
      { score := calcStructureScore ha.hierarchyScore os pa.avgLength
        headingA := ha
        paragraphA := pa
        flowA := fa
        hasIntro := hi
        hasConcl := hc
        organizationScore := os }
    llmAnalysis := llmCall llm d.content
      "Unable to perform LLM-based structure analysis due to API error" }

structure CompletenessNumeric where
  score : ℚ
  exampleMentionsF : ℕ
  exampleQuality : ℕ
  stepIndicatorsF : ℕ
  clearSteps : Bool
  instrDensity : ℚ
  informationRichness : ℚ
  support : SupportAnalysis
  deriving DecidableEq

structure CompletenessResult where
  numeric : CompletenessNumeric
  llmAnalysis : String

/-- `CompletenessAnalyzer.analyze`. -/
def completenessAnalyze (d : DocumentFeatures) (llm : Llm) : CompletenessResult :=
  let c := d.content
  let lc := lowerL c.data
  let mentions := exampleMentions c
  let eq0 := determineExampleQuality mentions d.codeBlocks.length d.images.length
  let steps := stepIndicators c
  let clear := hasClearSteps c
  let dens := instructionDensity c
  let richness := calcInformationRichness (vocabCount lc depthKeywords)
    (vocabCount lc explanationPhrases) (vocabCount lc prereqKeywords)
    (vocabCount lc troubleshootKeywords) (wordCount c)
  let support := analyzeSupportingMaterials d.codeBlocks d.images d.links
  { numeric :=
      { score := calcCompletenessScore eq0 clear dens richness
          support.overallSupportQuality
        exampleMentionsF := mentions
        exampleQuality := eq0
        stepIndicatorsF := steps
        clearSteps := clear
        instrDensity := dens
        informationRichness := richness
        support := support }
    llmAnalysis := llmCall llm c
      "Unable to perform LLM-based completeness analysis due to API error" }

structure StyleNumeric where
  score : ℚ
  totalSentences : ℕ
  passiveFrac : ℚ
  types : SentenceTypes
  tone : ToneIndicators
  formality : ℤ
  voiceQuality : String
  clarityGrade : ℚ
  actionGrade : ℚ
  consistencyScore : ℚ
  deriving DecidableEq

structure StyleResult where
  numeric : StyleNumeric
  llmAnalysis : String

/-- `StyleAnalyzer.analyze`: `_grade_clarity` receives the un-rounded
average sentence length and complex-word share, as in the source. -/
def styleAnalyze (c : String) (llm : Llm) : StyleResult :=
  let sentences := splitIntoSentences c
  let pf := passiveVoiceFrac c
  let tone := analyzeToneIndicators c
  let vq := determineVoiceQuality pf (toneBalance tone)
  let asl := styleAvgSentenceLength c
  let cwr := complexWordFrac c
  let fre : ℚ := if c.data.isEmpty then 0 else fleschReadingEaseM c
  let clar := gradeClarity asl cwr fre
  let act := gradeActionOrientation (actionVerbCount c) (imperativeFrac c) (wordsL c.data).length
  let cons := calcConsistencyScore (capitalizationRate c) (terminologyIssuesCount c)
  { numeric :=
      { score := calcStyleScore vq clar act cons
        totalSentences := sentences.length
        passiveFrac := pf
        types := analyzeSentenceTypes sentences
        tone := tone
        formality := formalityScore c
        voiceQuality := vq
        clarityGrade := clar
        actionGrade := act
        consistencyScore := cons }
    llmAnalysis := llmCall llm c
      "Unable to perform LLM-based style analysis due to API error" }

structure OverallReport where
  readability : ReadabilityResult
  structureR : StructureResult
  completeness : CompletenessResult
  style : StyleResult
  overallScoreF : ℚ

/-- `DocumentationAnalyzer.analyze_document`: run the four analyzers and
aggregate; in the embedding every analyzer result carries a score, so all
four options are `some`. -/
def analyzeDocument (d : DocumentFeatures) (llm : Llm) : OverallReport :=
  let r := readabilityAnalyze d.content llm
  let s := structureAnalyze d llm
  let c := completenessAnalyze d llm
  let st := styleAnalyze d.content llm
  { readability := r
    structureR := s
    completeness := c
    style := st
    overallScoreF := overallScore (some r.numeric.score) (some s.numeric.score)
      (some c.numeric.score) (some st.numeric.score) }

/-! ### Claim theorems -/

/-- C6: for a headings sequence whose levels are exactly [1, 3, 5], the
structure analyzer's heading analysis reports exactly 2 gaps and a
`max_gap` of 2. -/
theorem c6_heading_gaps_one_three_five :
    (analyzeHeadings [⟨1, "Intro"⟩, ⟨3, "Body"⟩, ⟨5, "End"⟩]).gapsList.length = 2 ∧
    (analyzeHeadings [⟨1, "Intro"⟩, ⟨3, "Body"⟩, ⟨5, "End"⟩]).maxGap = 2 ∧
    (analyzeHeadings [⟨1, "Intro"⟩, ⟨3, "Body"⟩, ⟨5, "End"⟩]).hasGaps = true := by
  refine ⟨?_, ?_, ?_⟩ <;> decide

/-- C9: for an empty headings sequence, `_analyze_headings` reports
`has_gaps = True` (although there are no levels to gap between),
`max_gap = 0` and `hierarchy_score = 0`. -/
theorem c9_empty_headings_analysis :
    (analyzeHeadings []).hasGaps = true ∧
    (analyzeHeadings []).maxGap = 0 ∧
    (analyzeHeadings []).hierarchyScore = 0 :=
  ⟨rfl, rfl, rfl⟩

/-- C10: for every combination of code blocks, images and links, the
completeness analyzer's overall support quality lies in [5, 10]: the
additive bonuses on the base value 5 are non-negative and the cap is 10. -/
theorem c10_support_quality_bounds (cbs : List CodeBlock) (imgs : List Image)
    (lks : List Link) :
    5 ≤ (analyzeSupportingMaterials cbs imgs lks).overallSupportQuality ∧
    (analyzeSupportingMaterials cbs imgs lks).overallSupportQuality ≤ 10 := by
  show 5 ≤ calcSupportQuality _ _ _ _ _ _ ∧ calcSupportQuality _ _ _ _ _ _ ≤ 10
  unfold calcSupportQuality
  constructor
  · refine le_min (by norm_num) ?_
    split_ifs <;> norm_num
  · exact min_le_left _ _

/-- C8: the numeric output of `analyze_document` is deterministic: all
score and metric fields of every dimension result, and the overall score,
are functions of the `DocumentFeatures` alone — they are identical across
runs and do not depend on the LLM collaborator at all (taking
`llm1 = llm2` gives the two runs of the claim verbatim). -/
theorem c8_analyzeDocument_numeric_deterministic (d : DocumentFeatures)
    (llm1 llm2 : Llm) :
    (analyzeDocument d llm1).readability.numeric =
      (analyzeDocument d llm2).readability.numeric ∧
    (analyzeDocument d llm1).structureR.numeric =
      (analyzeDocument d llm2).structureR.numeric ∧
    (analyzeDocument d llm1).completeness.numeric =
      (analyzeDocument d llm2).completeness.numeric ∧
    (analyzeDocument d llm1).style.numeric =
      (analyzeDocument d llm2).style.numeric ∧
    (analyzeDocument d llm1).overallScoreF = (analyzeDocument d llm2).overallScoreF :=
  ⟨rfl, rfl, rfl, rfl, rfl⟩

/-- C1: the aggregator's overall score equals the unweighted arithmetic
mean of the dimension scores whose result contains a `score` field
(modelled by `some`), rounded to 1 decimal, and equals 0.0 when no result
contains a `score` field: the equal 0.25 weights cancel. -/
theorem c1_overallScore_is_unweighted_mean (r s c st : Option ℚ) :
    overallScore r s c st = specOverallScore r s c st := by
  rcases r with _ | x <;> rcases s with _ | y <;> rcases c with _ | z <;> rcases st with _ | w <;>
    simp only [overallScore, specOverallScore, List.cons_append, List.nil_append,
      List.append_nil, List.map_cons, List.map_nil, List.sum_cons, List.sum_nil,
      List.filterMap_cons, List.filterMap_nil, List.isEmpty, List.length_cons,
      List.length_nil, id] <;>
    norm_num <;> (congr 1) <;> ring

/-- C2: the style analyzer's overall score lies in [0, 10] for every
input, even though `_calculate_style_score` does not clamp: the four
component grades are individually bounded (voice bucket in [4, 10],
clarity and action grades in [0, 10] by construction, consistency clamped
to [0, 10]), so the weighted sum lies in [1, 10] and rounding preserves
[0, 10].  The arguments range over all rationals and integers, a superset
of the values any `DocumentFeatures` can produce, so the bound holds for
every valid input. -/
theorem c2_style_score_bounds (pf : ℚ) (tb : ℤ) (asl cwr fre : ℚ) (avc : ℕ)
    (imf : ℚ) (wc : ℕ) (capRate : ℚ) (issues : ℕ) :
    0 ≤ calcStyleScore (determineVoiceQuality pf tb) (gradeClarity asl cwr fre)
        (gradeActionOrientation avc imf wc) (calcConsistencyScore capRate issues) ∧
    calcStyleScore (determineVoiceQuality pf tb) (gradeClarity asl cwr fre)
        (gradeActionOrientation avc imf wc) (calcConsistencyScore capRate issues) ≤ 10 := by
  have hv : 4 ≤ voiceScoreOf (determineVoiceQuality pf tb) ∧
      voiceScoreOf (determineVoiceQuality pf tb) ≤ 10 := by
    unfold determineVoiceQuality
    split_ifs <;> simp [voiceScoreOf] <;> norm_num
  have hcl : 0 ≤ gradeClarity asl cwr fre ∧ gradeClarity asl cwr fre ≤ 10 := by
    unfold gradeClarity
    refine ⟨le_min (by norm_num) ?_, min_le_left _ _⟩
    split_ifs <;> norm_num
  have hac : 0 ≤ gradeActionOrientation avc imf wc ∧
      gradeActionOrientation avc imf wc ≤ 10 := by
    unfold gradeActionOrientation
    by_cases h : wc = 0
    · simp [h]
    · simp only [h, if_false]
      refine ⟨le_min (by norm_num) ?_, min_le_left _ _⟩
      show (0:ℚ) ≤ _ + _
      split_ifs <;> norm_num
  have hco : 0 ≤ calcConsistencyScore capRate issues ∧
      calcConsistencyScore capRate issues ≤ 10 := by
    unfold calcConsistencyScore
    exact ⟨le_max_left _ _, max_le (by norm_num) (min_le_left _ _)⟩
  unfold calcStyleScore
  set v := voiceScoreOf (determineVoiceQuality pf tb)
  set cl := gradeClarity asl cwr fre
  set a := gradeActionOrientation avc imf wc
  set co := calcConsistencyScore capRate issues
  have hlo : (0:ℚ) ≤ v * 0.25 + cl * 0.30 + a * 0.25 + co * 0.20 := by
    nlinarith [hv.1, hcl.1, hac.1, hco.1]
  have hhi : v * 0.25 + cl * 0.30 + a * 0.25 + co * 0.20 ≤ 10 := by
    nlinarith [hv.2, hcl.2, hac.2, hco.2]
  constructor
  · calc (0:ℚ) = round1 0 := round1_zero.symm
    _ ≤ _ := round1_mono hlo
  · calc round1 (v * 0.25 + cl * 0.30 + a * 0.25 + co * 0.20) ≤ round1 10 := round1_mono hhi
    _ = 10 := round1_ten

/-- C7: the readability score is monotonically non-increasing in the
technical-term density: with the Flesch reading ease and Flesch-Kincaid
grade fixed, a greater density never yields a greater score (the density
enters only through the subtracted penalty `density * 0.3`, and rounding
and clamping are monotone). -/
theorem c7_readability_score_antitone_in_density (flesch grade d1 d2 : ℚ)
    (h : d1 ≤ d2) :
    calcReadabilityScore flesch grade d2 ≤ calcReadabilityScore flesch grade d1 := by
  unfold calcReadabilityScore
  have hinner : round1 (max 0 (min 10 (flesch / 10)) - max 0 ((grade - 8) * 0.5) - d2 * 0.3) ≤
      round1 (max 0 (min 10 (flesch / 10)) - max 0 ((grade - 8) * 0.5) - d1 * 0.3) :=
    round1_mono (by linarith)
  exact max_le_max (le_refl 0) (min_le_min (le_refl 10) hinner)

/-- Witness for C7 at a concrete input: densities 1 and 2 with Flesch 60
and grade 8. -/
theorem c7_readability_score_antitone_in_density_witness :
    (1:ℚ) ≤ 2 ∧ calcReadabilityScore 60 8 2 ≤ calcReadabilityScore 60 8 1 :=
  ⟨by norm_num, c7_readability_score_antitone_in_density 60 8 1 2 (by norm_num)⟩

/-- Counterexample for C4: with the Flesch computation succeeding (value
50) and the Gunning-Fog computation failing, the code does NOT keep the
Flesch value: the single `try/except` around all six index computations
returns the all-zero record, unlike the per-index behaviour the claim
describes. -/
theorem c4_counterexample_not_per_index :
    calculateReadabilityScores (some 50) (some 7) none (some 7) (some 7) (some 7) ≠
    specReadabilityScores (some 50) (some 7) none (some 7) (some 7) (some 7) := by
  intro h
  have hf := congrArg ReadScores.fleschReadingEase h
  simp only [calculateReadabilityScores, specReadabilityScores, Option.map_some,
    Option.getD_some] at hf
  norm_num [round1] at hf

/-- C4 as amended: a failure of ANY of the six index computations makes
all six default to 0 together (the shared `try/except` aborts the whole
block); only when all six succeed does each index keep its rounded value. -/
theorem c4_amended_all_or_nothing (fre fkg gf cl ari smog : Option ℚ) :
    ((fre = none ∨ fkg = none ∨ gf = none ∨ cl = none ∨ ari = none ∨ smog = none) →
      calculateReadabilityScores fre fkg gf cl ari smog = ⟨0, 0, 0, 0, 0, 0⟩) ∧
    (∀ a b c d e f, fre = some a → fkg = some b → gf = some c → cl = some d →
      ari = some e → smog = some f →
      calculateReadabilityScores fre fkg gf cl ari smog =
        ⟨round1 a, round1 b, round1 c, round1 d, round1 e, round1 f⟩) := by
  constructor
  · intro h
    rcases fre with _ | a <;> rcases fkg with _ | b <;> rcases gf with _ | c <;>
      rcases cl with _ | d <;> rcases ari with _ | e <;> rcases smog with _ | f <;>
      simp only [calculateReadabilityScores] <;> simp at h
  · intro a b c d e f h1 h2 h3 h4 h5 h6
    subst h1; subst h2; subst h3; subst h4; subst h5; subst h6
    rfl

/-- Witness for C4 (amended), both conjuncts at concrete inputs: a
Gunning-Fog failure zeroes everything; all-success keeps the rounded
values. -/
theorem c4_amended_all_or_nothing_witness :
    calculateReadabilityScores (some 50) (some 7) none (some 7) (some 7) (some 7) =
      ⟨0, 0, 0, 0, 0, 0⟩ ∧
    calculateReadabilityScores (some 50) (some 7) (some 9) (some 7) (some 7) (some 7) =
      ⟨round1 50, round1 7, round1 9, round1 7, round1 7, round1 7⟩ :=
  ⟨(c4_amended_all_or_nothing (some 50) (some 7) none (some 7) (some 7) (some 7)).1
      (Or.inr (Or.inr (Or.inl rfl))),
   (c4_amended_all_or_nothing (some 50) (some 7) (some 9) (some 7) (some 7) (some 7)).2
      50 7 9 7 7 7 rfl rfl rfl rfl rfl rfl⟩

/-- C3 failing input: `_determine_complexity_level` receives the RAW
density fraction (here 1/6), not the percentage field (16.67), so the code
reports "Low" although the claim's percentage bucketing (density 16.67% >
5%) requires "Very High".  Elsewhere the same file compares the percentage
against the same thresholds (suggestions, score penalty), so the spec
reflects the intent and the call site is a slip. -/
theorem c3_complexity_level_diverges_at_failing_input :
    (analyzeTechnicalComplexity "use the api to send data").complexityLevel = "Low" ∧
    (analyzeTechnicalComplexity "use the api to send data").technicalTermDensityPct =
      1667/100 ∧
    claimComplexityLevel
      (analyzeTechnicalComplexity "use the api to send data").technicalTermDensityPct
      (analyzeTechnicalComplexity "use the api to send data").jargonCountF = "Very High" := by
  have ht : techTermCount "use the api to send data" = 1 := by decide
  have hw : wordCount "use the api to send data" = 6 := by decide
  have hj : jargonCount "use the api to send data" = 0 := by decide
  have hd : techTermDensityRaw "use the api to send data" = 1/6 := by
    rw [techTermDensityRaw, if_neg (by omega), ht, hw]
    norm_num
  have hpct : round2 ((1:ℚ)/6 * 100) = 1667/100 := by norm_num [round2]
  refine ⟨?_, ?_, ?_⟩
  · show determineComplexityLevel (techTermDensityRaw "use the api to send data")
      (jargonCount "use the api to send data") = "Low"
    rw [hd, hj]
    norm_num [determineComplexityLevel]
  · show round2 (techTermDensityRaw "use the api to send data" * 100) = 1667/100
    rw [hd]; exact hpct
  · show claimComplexityLevel
      (round2 (techTermDensityRaw "use the api to send data" * 100))
      (jargonCount "use the api to send data") = "Very High"
    rw [hd, hj, hpct]
    norm_num [claimComplexityLevel]

/-- C5: on empty content every embedded analyzer metric computation is a
total function (nothing can raise), and each ratio-based metric — the
readability averages, the technical-term density, the style analyzer's
passive-voice share, average sentence length, filler density and
user-focus share, and the completeness analyzer's instruction density —
takes its guarded zero branch instead of dividing by zero. -/
theorem c5_empty_content_ratio_metrics_zero :
    (calcBasicMetrics "").avgSentenceLength = 0 ∧
    (calcBasicMetrics "").avgSyllablesPerWord = 0 ∧
    techTermDensityRaw "" = 0 ∧
    passiveVoiceFrac "" = 0 ∧
    styleAvgSentenceLength "" = 0 ∧
    instructionDensity "" = 0 ∧
    fillerDensity "" = 0 ∧
    userFocusFrac "" = 0 := by
  have hsc : sentenceCountM "" = 0 := by decide
  have hlc : lexiconCountM "" = 0 := by decide
  have hw : wordCount "" = 0 := by decide
  have hs : splitIntoSentences "" = [] := by decide
  have hu : vocabCount (lowerL "".data) userPronouns = 0 := by decide
  have hsys : vocabCount (lowerL "".data) systemPronouns = 0 := by decide
  refine ⟨?_, ?_, ?_, ?_, ?_, ?_, ?_, ?_⟩
  · simp [calcBasicMetrics, hsc]
  · simp [calcBasicMetrics, hlc]
  · simp [techTermDensityRaw, hw]
  · simp [passiveVoiceFrac, hs]
  · simp [styleAvgSentenceLength, hs]
  · simp [instructionDensity, hw]
  · simp [fillerDensity, hw]
  · simp [userFocusFrac, hu, hsys]
